import Mathlib

/-!
Verification of the Knowledge Graph Builder and Evidence Retriever of the
`kg_medical_assistant` repository.

The development shallowly embeds the CSV-driven graph construction of
`kg_model.py` (`build_graph_from_csv`) and the retrieval traversal of
`rag_engine.py` (`retrieve_context`).  The graph store mirrors the semantics
of a `networkx.DiGraph`:

* node and edge attribute dictionaries are kept in insertion order;
* `add_node` / `add_edge` on an existing key update the stored attribute
  dictionary in place (the attributes supplied by the new call overwrite the
  old values, attributes not supplied are retained), keeping the entry at its
  original position; a fresh key is appended at the end;
* `successors` / `predecessors` iterate the adjacency dictionaries in edge
  insertion order.

Python floats appear only as the parsed weight-change value; it is compared
against the integer literal `-1` and embedded here as a rational number
(the CSV values are short decimal literals, for which the float comparison
agrees with the exact rational comparison).
-/

/-- A processed patient record as produced by `PatientDataLoader.process_data`
in `data_loader.py` (the upstream ingestion collaborator).  Field names follow
the Python dictionary keys.  `weight_change_value` and `hba1c` are Python
floats, embedded as rationals. -/
structure PatientRecord where
  id : String
  weight_change_value : ℚ
  weight_change_category : String
  hba1c : ℚ
  daily_steps : ℕ
  daily_steps_class : String
  caloric_intake : ℕ
  caloric_intake_class : String
  diet_flexibility_score : ℕ
  diet_flexibility_label : String
  diet_flexibility_class : String
  weight_loss_pref_score : ℕ
  weight_loss_pref_label : String
  scenario : String
deriving DecidableEq, Repr

/-- Attributes attached to a graph node.  `build_graph_from_csv` always
supplies `type` and `description`; `score`, `weight_change`, `category` and
`data` are supplied only for some node kinds (`none` = key absent from the
attribute dictionary). -/
structure NodeAttrs where
  type : String
  description : String
  score : Option ℕ := none
  weight_change : Option ℚ := none
  category : Option String := none
  data : Option PatientRecord := none
deriving DecidableEq, Repr

/-- Attributes attached to a directed edge: `relation` is always supplied;
`reason` and `effect` only by some rules (`none` = key absent). -/
structure EdgeAttrs where
  relation : String
  reason : Option String := none
  effect : Option String := none
deriving DecidableEq, Repr

/-- Dictionary update on one optional attribute: a supplied value overwrites,
an absent value leaves the stored one in place (Python `dict.update`). -/
def optUpdate {α : Type} (old new : Option α) : Option α :=
  match new with
  | some a => some a
  | none => old

/-- Python `dict.update` of a stored node-attribute dictionary with the
attributes supplied by a later `add_node` call on the same node. -/
def NodeAttrs.update (old new : NodeAttrs) : NodeAttrs :=
  { type := new.type
    description := new.description
    score := optUpdate old.score new.score
    weight_change := optUpdate old.weight_change new.weight_change
    category := optUpdate old.category new.category
    data := optUpdate old.data new.data }

/-- Python `dict.update` of a stored edge-attribute dictionary with the
attributes supplied by a later `add_edge` call on the same ordered pair. -/
def EdgeAttrs.update (old new : EdgeAttrs) : EdgeAttrs :=
  { relation := new.relation
    reason := optUpdate old.reason new.reason
    effect := optUpdate old.effect new.effect }

/-- Insertion-ordered association list upsert: an existing key keeps its
position and has its value merged by `merge`; a fresh key is appended.  This
is the storage discipline of Python dictionaries, hence of networkx node and
adjacency dictionaries. -/
def alUpsert {κ α : Type} [DecidableEq κ] (merge : α → α → α) :
    List (κ × α) → κ → α → List (κ × α)
  | [], k, a => [(k, a)]
  | (k', b) :: rest, k, a =>
    if k' = k then (k', merge b a) :: rest else (k', b) :: alUpsert merge rest k a

/-- First-match lookup in an association list. -/
def alLookup {κ α : Type} [DecidableEq κ] : List (κ × α) → κ → Option α
  | [], _ => none
  | (k', b) :: rest, k => if k' = k then some b else alLookup rest k

/-- A directed graph with attributed nodes and edges, mirroring
`networkx.DiGraph`: at most one stored entry per node id and per ordered
`(source, target)` pair, both kept in insertion order. -/
structure Graph where
  nodes : List (String × NodeAttrs)
  edges : List ((String × String) × EdgeAttrs)
deriving DecidableEq, Repr

/-- The empty graph `nx.DiGraph()`. -/
def Graph.empty : Graph := ⟨[], []⟩

/-- `G.add_node(id, **attrs)`: update in place if present, else append. -/
def Graph.add_node (G : Graph) (id : String) (a : NodeAttrs) : Graph :=
  { G with nodes := alUpsert NodeAttrs.update G.nodes id a }

/-- `G.add_edge(u, v, **attrs)`: update in place if the ordered pair is
present, else append.  (networkx would also insert missing endpoint nodes;
in `build_graph_from_csv` every endpoint node is added before any edge that
references it, so this embedding updates only the edge list.) -/
def Graph.add_edge (G : Graph) (u v : String) (a : EdgeAttrs) : Graph :=
  { G with edges := alUpsert EdgeAttrs.update G.edges (u, v) a }

/-- Node membership test, Python `id in G.nodes()`. -/
def Graph.hasNode (G : Graph) (id : String) : Bool :=
  (alLookup G.nodes id).isSome

/-- Python `G.nodes[id].get('type')`: `none` when the node is absent. -/
def Graph.nodeType (G : Graph) (id : String) : Option String :=
  (alLookup G.nodes id).map NodeAttrs.type

/-- The stored out-edges of `u` in insertion order, with their attributes. -/
def Graph.edgesFrom (G : Graph) (u : String) : List ((String × String) × EdgeAttrs) :=
  G.edges.filter (fun e => decide (e.1.1 = u))

/-- Python `G.successors(u)`: adjacency-dictionary keys in insertion order. -/
def Graph.successors (G : Graph) (u : String) : List String :=
  (G.edgesFrom u).map (fun e => e.1.2)

/-- Python `G.predecessors(v)`: in-edge sources in insertion order. -/
def Graph.predecessors (G : Graph) (v : String) : List String :=
  (G.edges.filter (fun e => decide (e.1.2 = v))).map (fun e => e.1.1)

/-- Python `G.get_edge_data(u, v)`: `none` when the edge is absent. -/
def Graph.get_edge_data (G : Graph) (u v : String) : Option EdgeAttrs :=
  alLookup G.edges (u, v)

/-- Python `G.has_edge(u, v)`. -/
def Graph.has_edge (G : Graph) (u v : String) : Bool :=
  (G.get_edge_data u v).isSome

/-! ### The Graph Builder (`kg_model.build_graph_from_csv`) -/

/-- Name of the per-patient diet-flexibility preference node. -/
def dietFlexPrefName (p : PatientRecord) : String := p.id ++ "_DietFlexPref"

/-- Name of the per-patient weight-loss-rate preference node. -/
def weightLossPrefName (p : PatientRecord) : String := p.id ++ "_WeightLossPref"

/-- Name of the per-patient outcome node. -/
def outcomeName (p : PatientRecord) : String := p.id ++ "_Outcome"

/-- Display of the parsed weight-change value inside the outcome node's
description text; abstracts Python's float formatting.  No retrieval output
and no claim inspects this text. -/
def pyFloatStr (q : ℚ) : String := toString q

/-- Attributes of the Patient node created for a record. -/
def patientAttrs (p : PatientRecord) : NodeAttrs :=
  { type := "Patient"
    description := "CSV Patient: " ++ p.weight_change_category ++ " weight change"
    data := some p }

/-- Attributes of the diet-flexibility Preference node. -/
def dietPrefAttrs (p : PatientRecord) : NodeAttrs :=
  { type := "Preference"
    description := "Dietary flexibility preference: " ++ p.diet_flexibility_label
    score := some p.diet_flexibility_score }

/-- Attributes of the weight-loss-rate Preference node. -/
def weightPrefAttrs (p : PatientRecord) : NodeAttrs :=
  { type := "Preference"
    description := "Weight loss rate preference: " ++ p.weight_loss_pref_label
    score := some p.weight_loss_pref_score }

/-- Attributes of the Outcome node. -/
def outcomeAttrs (p : PatientRecord) : NodeAttrs :=
  { type := "Outcome"
    description := p.weight_change_category ++ " weight change: " ++
      pyFloatStr p.weight_change_value ++ " kg"
    weight_change := some p.weight_change_value
    category := some p.weight_change_category }

/-- Guard of Rule 1: high diet flexibility and high caloric intake. -/
def ruleR1 (p : PatientRecord) : Prop :=
  p.diet_flexibility_class = "High" ∧ p.caloric_intake_class = "High"

/-- Guard of Rule 2: high activity and low intake. -/
def ruleR2 (p : PatientRecord) : Prop :=
  p.daily_steps_class = "High" ∧ p.caloric_intake_class = "Low"

/-- Guard of Rule 3: low activity and high intake. -/
def ruleR3 (p : PatientRecord) : Prop :=
  p.daily_steps_class = "Low" ∧ p.caloric_intake_class = "High"

/-- Guard of Rule 4: high activity but slow or increasing weight. -/
def ruleR4 (p : PatientRecord) : Prop :=
  p.daily_steps_class = "High" ∧
    (p.weight_change_category = "Slow" ∨ p.weight_change_category = "Increase")

instance (p : PatientRecord) : Decidable (ruleR1 p) := by unfold ruleR1; infer_instance
instance (p : PatientRecord) : Decidable (ruleR2 p) := by unfold ruleR2; infer_instance
instance (p : PatientRecord) : Decidable (ruleR3 p) := by unfold ruleR3; infer_instance
instance (p : PatientRecord) : Decidable (ruleR4 p) := by unfold ruleR4; infer_instance

/-- Reason text of the `conflicts_with` edge of Rule 1. -/
def r1ConflictReason (p : PatientRecord) : String :=
  "High flexibility (" ++ toString p.diet_flexibility_score ++
    "/10) correlates with high intake (" ++ toString p.caloric_intake ++ " cal)"

/-- Effect tag of the `influences` edge of Rule 1. -/
def r1Effect (p : PatientRecord) : String :=
  if p.weight_change_value < -1 then "negative" else "neutral"

/-- Reason text of the `strongly_supports` edge of Rule 2. -/
def r2Reason (p : PatientRecord) : String :=
  "High activity (" ++ toString p.daily_steps ++ " steps) with controlled intake"

/-- Reason text of the `insufficient` edge of Rule 3. -/
def r3ActivityReason (p : PatientRecord) : String :=
  "Low activity (" ++ toString p.daily_steps ++ " steps) cannot offset high intake"

/-- Reason text of the `dominates` edge of Rule 3. -/
def r3IntakeReason (p : PatientRecord) : String :=
  "High intake (" ++ toString p.caloric_intake ++ " cal) dominates outcome"

/-- Fixed reason text of the `compensates_for` edge of Rule 4. -/
def r4Reason : String := "High caloric intake negates exercise benefits"

/-- Body of the per-patient loop of `build_graph_from_csv`: node creation,
the three patient edges, then rules R1 to R4 evaluated in order. -/
def processPatient (G : Graph) (p : PatientRecord) : Graph :=
  let G := G.add_node p.id (patientAttrs p)
  let G := G.add_node (dietFlexPrefName p) (dietPrefAttrs p)
  let G := G.add_node (weightLossPrefName p) (weightPrefAttrs p)
  let G := G.add_node (outcomeName p) (outcomeAttrs p)
  let G := G.add_edge p.id (dietFlexPrefName p) { relation := "has_preference" }
  let G := G.add_edge p.id (weightLossPrefName p) { relation := "has_preference" }
  let G := G.add_edge p.id (outcomeName p) { relation := "experiences" }
  let G := if ruleR1 p then
      (G.add_edge (dietFlexPrefName p) "Calorie_Intake_CSV"
          { relation := "conflicts_with", reason := some (r1ConflictReason p) }).add_edge
        "Calorie_Intake_CSV" (outcomeName p)
          { relation := "influences", effect := some (r1Effect p) }
    else G
  let G := if ruleR2 p then
      G.add_edge "Activity_Level_CSV" (outcomeName p)
        { relation := "strongly_supports", reason := some (r2Reason p) }
    else G
  let G := if ruleR3 p then
      (G.add_edge "Activity_Level_CSV" (outcomeName p)
          { relation := "insufficient", reason := some (r3ActivityReason p) }).add_edge
        "Calorie_Intake_CSV" (outcomeName p)
          { relation := "dominates", reason := some (r3IntakeReason p) }
    else G
  let G := if ruleR4 p then
      G.add_edge "Calorie_Intake_CSV" (outcomeName p)
        { relation := "compensates_for", reason := some r4Reason }
    else G
  G

/-- The four shared Behavior/Metric nodes created before the patient loop. -/
def sharedInit : Graph :=
  (((Graph.empty.add_node "Activity_Level_CSV"
      { type := "Behavior", description := "Daily step count (from CSV)" }).add_node
    "Calorie_Intake_CSV"
      { type := "Behavior", description := "Daily caloric intake (from CSV)" }).add_node
    "Weight_Change_Metric"
      { type := "Metric", description := "Weight change over time" }).add_node
    "HbA1c_Metric"
      { type := "Metric", description := "Glycated hemoglobin" }

/-- Graph construction of `kg_model.build_graph_from_csv`, starting from the
already loaded patient records (CSV parsing belongs to the out-of-scope
ingestion collaborator).  The Python function also returns the unchanged
record list alongside the graph. -/
def build_graph_from_csv (patients : List PatientRecord) : Graph :=
  patients.foldl processPatient sharedInit

/-! ### The Evidence Retriever (`rag_engine.retrieve_context`) -/

/-- A structured evidence chain, the dictionary built in `retrieve_context`. -/
structure EvidenceChain where
  preference : String
  conflict_relation : String
  behavior : String
  behavior_relation : String
  outcome : String
deriving DecidableEq, Repr

/-- The not-found reasoning line. -/
def notFoundLine (patient_id : String) : String :=
  "Patient " ++ patient_id ++ " not found in knowledge graph."

/-- Step 1 of the retriever: outgoing neighbors of the patient whose type is
`Outcome`, in edge insertion order. -/
def patientOutcomes (G : Graph) (patient_id : String) : List String :=
  (G.successors patient_id).filter (fun n => decide (G.nodeType n = some "Outcome"))

/-- Step 2 of the retriever: outgoing neighbors of the patient whose type is
`Preference`, in edge insertion order. -/
def patientPreferences (G : Graph) (patient_id : String) : List String :=
  (G.successors patient_id).filter (fun n => decide (G.nodeType n = some "Preference"))

/-- The header reasoning line. -/
def headerLine (G : Graph) (patient_id : String) : String :=
  "Analyzing " ++ patient_id ++ " who is experiencing: " ++
    String.intercalate ", " (patientOutcomes G patient_id) ++ "."

/-- The line announcing that the fallback causal trace is entered. -/
def noConflictsLine : String :=
  "No direct preference-behavior conflicts detected. Analyzing other factors..."

/-- The explanation line emitted together with one evidence chain. -/
def conflictExplanation (pref conflict_node : String) (edge_data influence_data : EdgeAttrs)
    (outcome : String) : String :=
  "Patient has preference '" ++ pref ++ "'. This conflicts with managing '" ++
    conflict_node ++ "' (" ++ edge_data.reason.getD "direct conflict" ++
    "). Unmanaged '" ++ conflict_node ++ "' " ++ influence_data.relation ++
    " '" ++ outcome ++ "'."

/-- The conflict-chain search of `retrieve_context`: for each preference in
order, each successor whose edge relation is `conflicts_with`, and each
outcome reachable from that conflict node, one chain paired with its
explanation line, in loop order. -/
def conflictPairs (G : Graph) (preferences outcomes : List String) :
    List (EvidenceChain × String) :=
  preferences.flatMap (fun pref =>
    (G.successors pref).flatMap (fun neighbor =>
      match G.get_edge_data pref neighbor with
      | none => []
      | some edge_data =>
        if edge_data.relation = "conflicts_with" then
          outcomes.filterMap (fun outcome =>
            match G.get_edge_data neighbor outcome with
            | none => none
            | some influence_data =>
              some ({ preference := pref
                      conflict_relation := "conflicts_with"
                      behavior := neighbor
                      behavior_relation := influence_data.relation
                      outcome := outcome },
                    conflictExplanation pref neighbor edge_data influence_data outcome))
        else []))

/-- The fallback causal trace of `retrieve_context`: for each outcome in
order, one line per incoming neighbor whose type is Behavior or Outcome. -/
def fallbackLines (G : Graph) (outcomes : List String) : List String :=
  outcomes.flatMap (fun outcome =>
    (G.predecessors outcome).filterMap (fun pred =>
      if G.nodeType pred = some "Behavior" ∨ G.nodeType pred = some "Outcome" then
        some ("'" ++ pred ++ "' " ++
          (match G.get_edge_data pred outcome with
           | some edge_data => edge_data.relation
           | none => "affects") ++ " '" ++ outcome ++ "'.")
      else none))

/-- `rag_engine.retrieve_context`: reasoning lines and evidence chains for one
patient.  `query_intent` is accepted but nowhere read, as in the source. -/
def retrieve_context (G : Graph) (patient_id : String) (query_intent : String) :
    List String × List EvidenceChain :=
  if G.hasNode patient_id = false then
    ([notFoundLine patient_id], [])
  else
    let outcomes := patientOutcomes G patient_id
    let preferences := patientPreferences G patient_id
    let pairs := conflictPairs G preferences outcomes
    if pairs = [] then
      (headerLine G patient_id :: noConflictsLine :: fallbackLines G outcomes, [])
    else
      (headerLine G patient_id :: pairs.map Prod.snd, pairs.map Prod.fst)

/-! ### Auxiliary definitions used by the statements -/

/-- Result of writing the supplied edge attributes `a` over a possibly
existing stored dictionary. -/
def writeOver (old : Option EdgeAttrs) (a : EdgeAttrs) : EdgeAttrs :=
  match old with
  | some b => b.update a
  | none => a

/-- The four node names generated for one record, in creation order. -/
def recNames (p : PatientRecord) : List String :=
  [p.id, dietFlexPrefName p, weightLossPrefName p, outcomeName p]

/-- The four nodes generated for one record, with their attributes. -/
def recNodePairs (p : PatientRecord) : List (String × NodeAttrs) :=
  [(p.id, patientAttrs p), (dietFlexPrefName p, dietPrefAttrs p),
   (weightLossPrefName p, weightPrefAttrs p), (outcomeName p, outcomeAttrs p)]

/-- Names of the four shared nodes, in creation order. -/
def sharedNames : List String :=
  ["Activity_Level_CSV", "Calorie_Intake_CSV", "Weight_Change_Metric", "HbA1c_Metric"]

/-- The four shared nodes with their attributes. -/
def sharedNodePairs : List (String × NodeAttrs) :=
  [("Activity_Level_CSV", { type := "Behavior", description := "Daily step count (from CSV)" }),
   ("Calorie_Intake_CSV", { type := "Behavior", description := "Daily caloric intake (from CSV)" }),
   ("Weight_Change_Metric", { type := "Metric", description := "Weight change over time" }),
   ("HbA1c_Metric", { type := "Metric", description := "Glycated hemoglobin" })]

/-- Well-formed input batch: the record identifiers and all node names derived
from them are pairwise distinct and distinct from the shared node names.  This
is the data-model invariant of the specification (node ids are unique within
the graph; record ids are unique per record). -/
def FreshNames (rs : List PatientRecord) : Prop :=
  (sharedNames ++ rs.flatMap recNames).Nodup

instance (rs : List PatientRecord) : Decidable (FreshNames rs) := by
  unfold FreshNames; infer_instance

/-- The ordered pairs that `processPatient` may create or update. -/
def touchedKeys (p : PatientRecord) : List (String × String) :=
  [(p.id, dietFlexPrefName p), (p.id, weightLossPrefName p), (p.id, outcomeName p),
   (dietFlexPrefName p, "Calorie_Intake_CSV"), ("Calorie_Intake_CSV", outcomeName p),
   ("Activity_Level_CSV", outcomeName p)]

/-- The edge sources that `processPatient` may touch. -/
def touchedSources (p : PatientRecord) : List String :=
  [p.id, dietFlexPrefName p, "Calorie_Intake_CSV", "Activity_Level_CSV"]

/-- The three patient edges created for one record, with their attributes. -/
def patientEdges (p : PatientRecord) : List ((String × String) × EdgeAttrs) :=
  [((p.id, dietFlexPrefName p), { relation := "has_preference" }),
   ((p.id, weightLossPrefName p), { relation := "has_preference" }),
   ((p.id, outcomeName p), { relation := "experiences" })]

/-- Attributes of the `conflicts_with` edge created by Rule 1. -/
def conflictEdgeAttrs (p : PatientRecord) : EdgeAttrs :=
  { relation := "conflicts_with", reason := some (r1ConflictReason p) }

/-- Final attribute dictionary of the edge `Calorie_Intake_CSV → <id>_Outcome`
after rules R1, R3 and R4 of one record have been evaluated in order, starting
from an absent edge (each later rule writes over the earlier dictionary). -/
def ciOutFinal (p : PatientRecord) : Option EdgeAttrs :=
  let s1 : Option EdgeAttrs :=
    if ruleR1 p then some { relation := "influences", effect := some (r1Effect p) } else none
  let s3 : Option EdgeAttrs :=
    if ruleR3 p then
      some (writeOver s1 { relation := "dominates", reason := some (r3IntakeReason p) })
    else s1
  if ruleR4 p then
    some (writeOver s3 { relation := "compensates_for", reason := some r4Reason })
  else s3

/-- The conflict-chain search as worded in the specification: for each
preference in order, for each of its outgoing neighbors in order whose edge
relation is `conflicts_with`, treated as a behavior candidate, and for each
outcome in order such that an edge behavior to outcome exists, one evidence
chain carrying that edge's relation.  Stated independently of the code path
to compare the two. -/
def specConflictSearch (G : Graph) (patient_id : String) : List EvidenceChain :=
  (patientPreferences G patient_id).flatMap (fun pref =>
    ((G.successors pref).filter (fun n =>
        decide ((G.get_edge_data pref n).map EdgeAttrs.relation = some "conflicts_with"))).flatMap
      (fun behavior =>
        (patientOutcomes G patient_id).filterMap (fun outcome =>
          (G.get_edge_data behavior outcome).map (fun influence_data =>
            { preference := pref
              conflict_relation := "conflicts_with"
              behavior := behavior
              behavior_relation := influence_data.relation
              outcome := outcome }))))

/-- Two graphs with identical node and edge sequences, attributes included. -/
def Graph.same (G₁ G₂ : Graph) : Prop :=
  G₁.nodes = G₂.nodes ∧ G₁.edges = G₂.edges

/-- State-passing form of `retrieve_context`: the graph is threaded through
the computation and returned.  Every networkx call in the Python function is
a read; accordingly each step passes the graph along unchanged, and a
mutation would show up as a different returned graph. -/
def retrieve_context_st (G : Graph) (patient_id : String) (query_intent : String) :
    (List String × List EvidenceChain) × Graph :=
  let s0 := (G.hasNode patient_id, G)
  if s0.1 = false then (([notFoundLine patient_id], []), s0.2)
  else
    let s1 := (patientOutcomes s0.2 patient_id, s0.2)
    let s2 := (patientPreferences s1.2 patient_id, s1.2)
    let s3 := (conflictPairs s2.2 s2.1 s1.1, s2.2)
    if s3.1 = [] then
      ((headerLine s3.2 patient_id :: noConflictsLine :: fallbackLines s3.2 s1.1, []), s3.2)
    else
      ((headerLine s3.2 patient_id :: s3.1.map Prod.snd, s3.1.map Prod.fst), s3.2)

/-- The scenario record of the specification's test property: triggers R1 and
R3 (steps class Low with intake class High), realizable from a CSV row with
weight change "-0.3 kg (Slow)", 3000 daily steps, 2500 calories and
preference strings "High (9/10)" and "High (8/10)". -/
def recScenarioP1 : PatientRecord :=
  { id := "P1", weight_change_value := -3/10, weight_change_category := "Slow",
    hba1c := 6, daily_steps := 3000, daily_steps_class := "Low",
    caloric_intake := 2500, caloric_intake_class := "High",
    diet_flexibility_score := 9, diet_flexibility_label := "High",
    diet_flexibility_class := "High", weight_loss_pref_score := 8,
    weight_loss_pref_label := "High", scenario := "" }

/-- A record triggering both R1 and R4 (high steps, slow weight change). -/
def recR1R4 : PatientRecord :=
  { id := "P2", weight_change_value := -3/10, weight_change_category := "Slow",
    hba1c := 6, daily_steps := 9000, daily_steps_class := "High",
    caloric_intake := 2500, caloric_intake_class := "High",
    diet_flexibility_score := 9, diet_flexibility_label := "High",
    diet_flexibility_class := "High", weight_loss_pref_score := 8,
    weight_loss_pref_label := "High", scenario := "" }

/-- A record triggering R1 only (medium steps, successful weight change). -/
def recR1Only : PatientRecord :=
  { id := "P3", weight_change_value := -2, weight_change_category := "Successful",
    hba1c := 6, daily_steps := 6000, daily_steps_class := "Medium",
    caloric_intake := 2500, caloric_intake_class := "High",
    diet_flexibility_score := 9, diet_flexibility_label := "High",
    diet_flexibility_class := "High", weight_loss_pref_score := 8,
    weight_loss_pref_label := "High", scenario := "" }

/-- A record triggering none of the four rules. -/
def recNoRules : PatientRecord :=
  { id := "P4", weight_change_value := -2, weight_change_category := "Successful",
    hba1c := 6, daily_steps := 4000, daily_steps_class := "Low",
    caloric_intake := 2000, caloric_intake_class := "Medium",
    diet_flexibility_score := 2, diet_flexibility_label := "Low",
    diet_flexibility_class := "Low", weight_loss_pref_score := 8,
    weight_loss_pref_label := "High", scenario := "" }

/-- Character-list version of "pat is an initial segment of l". -/
def leadsWith : List Char → List Char → Bool
  | [], _ => true
  | _ :: _, [] => false
  | a :: as, b :: bs => a == b && leadsWith as bs

/-- Character-list version of "pat occurs as a contiguous segment". -/
def occursIn (pat : List Char) : List Char → Bool
  | [] => leadsWith pat []
  | b :: bs => leadsWith pat (b :: bs) || occursIn pat bs

/-- Substring test used to state that a reasoning line mentions a word. -/
def strMentions (s pat : String) : Bool := occursIn pat.data s.data

/-! ### Basic lemmas about the graph store -/

theorem alLookup_eq_none_iff {κ α : Type} [DecidableEq κ] (l : List (κ × α)) (k : κ) :
    alLookup l k = none ↔ k ∉ l.map Prod.fst := by
  induction l with
  | nil => simp [alLookup]
  | cons hd tl ih =>
    obtain ⟨k', b⟩ := hd
    by_cases h : k' = k
    · subst h; simp [alLookup]
    · simp [alLookup, h, ih, Ne.symm h]

theorem alLookup_upsert_self {κ α : Type} [DecidableEq κ] (m : α → α → α)
    (l : List (κ × α)) (k : κ) (a : α) :
    alLookup (alUpsert m l k a) k =
      some (match alLookup l k with | some b => m b a | none => a) := by
  induction l with
  | nil => simp [alUpsert, alLookup]
  | cons hd tl ih =>
    obtain ⟨k', b⟩ := hd
    by_cases h : k' = k
    · subst h; simp [alUpsert, alLookup]
    · simp [alUpsert, alLookup, h, ih]

theorem alLookup_upsert_ne {κ α : Type} [DecidableEq κ] (m : α → α → α)
    (l : List (κ × α)) (k k' : κ) (a : α) (h : k' ≠ k) :
    alLookup (alUpsert m l k a) k' = alLookup l k' := by
  induction l with
  | nil => simp [alUpsert, alLookup, Ne.symm h]
  | cons hd tl ih =>
    obtain ⟨k'', b⟩ := hd
    by_cases h2 : k'' = k
    · subst h2
      have h4 : ¬ k'' = k' := fun hh => h (hh ▸ rfl)
      simp [alUpsert, alLookup, h4]
    · by_cases h3 : k'' = k'
      · subst h3; simp [alUpsert, alLookup, h2]
      · simp [alUpsert, alLookup, h2, h3, ih]

theorem alUpsert_of_lookup_none {κ α : Type} [DecidableEq κ] (m : α → α → α)
    (l : List (κ × α)) (k : κ) (a : α) (h : alLookup l k = none) :
    alUpsert m l k a = l ++ [(k, a)] := by
  induction l with
  | nil => simp [alUpsert]
  | cons hd tl ih =>
    obtain ⟨k', b⟩ := hd
    by_cases h2 : k' = k
    · subst h2; simp [alLookup] at h
    · simp [alLookup, h2] at h
      simp [alUpsert, h2, ih h]

theorem alLookup_of_mem_of_nodup {κ α : Type} [DecidableEq κ]
    (l : List (κ × α)) (k : κ) (a : α) (hn : (l.map Prod.fst).Nodup)
    (hm : (k, a) ∈ l) : alLookup l k = some a := by
  induction l with
  | nil => simp at hm
  | cons hd tl ih =>
    obtain ⟨k', b⟩ := hd
    simp only [List.map_cons, List.nodup_cons] at hn
    rcases List.mem_cons.mp hm with h | h
    · have hk : k' = k := congrArg Prod.fst h.symm
      have hb : b = a := congrArg Prod.snd h.symm
      subst hk
      simp [alLookup, hb]
    · have hk : k' ≠ k := by
        intro he
        exact hn.1 (he ▸ (List.mem_map.mpr ⟨(k, a), h, rfl⟩))
      simp [alLookup, hk, ih hn.2 h]

theorem edges_add_node (G : Graph) (i : String) (a : NodeAttrs) :
    (G.add_node i a).edges = G.edges := rfl

theorem nodes_add_edge (G : Graph) (u v : String) (a : EdgeAttrs) :
    (G.add_edge u v a).nodes = G.nodes := rfl

theorem hasNode_iff_mem_keys (G : Graph) (i : String) :
    G.hasNode i = true ↔ i ∈ G.nodes.map Prod.fst := by
  rw [Graph.hasNode, Option.isSome_iff_ne_none]
  simp only [ne_eq, alLookup_eq_none_iff, not_not, decide_eq_true_eq]

theorem add_node_of_fresh (G : Graph) (i : String) (a : NodeAttrs)
    (h : i ∉ G.nodes.map Prod.fst) :
    (G.add_node i a).nodes = G.nodes ++ [(i, a)] := by
  rw [Graph.add_node]
  exact alUpsert_of_lookup_none _ _ _ _ ((alLookup_eq_none_iff _ _).mpr h)

theorem nodeType_add_edge (G : Graph) (u v : String) (a : EdgeAttrs) (i : String) :
    (G.add_edge u v a).nodeType i = G.nodeType i := rfl

theorem get_edge_data_add_node (G : Graph) (i : String) (a : NodeAttrs) (u v : String) :
    (G.add_node i a).get_edge_data u v = G.get_edge_data u v := rfl

theorem get_edge_data_add_edge_self (G : Graph) (u v : String) (a : EdgeAttrs) :
    (G.add_edge u v a).get_edge_data u v = some (writeOver (G.get_edge_data u v) a) := by
  show alLookup (alUpsert EdgeAttrs.update G.edges (u, v) a) (u, v) = _
  rw [alLookup_upsert_self]
  rcases h : alLookup G.edges (u, v) with _ | b <;>
    simp [Graph.get_edge_data, h, writeOver]

theorem get_edge_data_add_edge_ne (G : Graph) (u v u' v' : String) (a : EdgeAttrs)
    (h : (u', v') ≠ (u, v)) :
    (G.add_edge u v a).get_edge_data u' v' = G.get_edge_data u' v' := by
  rw [Graph.add_edge, Graph.get_edge_data, Graph.get_edge_data]
  exact alLookup_upsert_ne _ _ _ _ _ h

theorem edgesFrom_add_node (G : Graph) (i : String) (a : NodeAttrs) (s : String) :
    (G.add_node i a).edgesFrom s = G.edgesFrom s := rfl

theorem filterSrc_upsert_ne (l : List ((String × String) × EdgeAttrs))
    (u v s : String) (a : EdgeAttrs) (h : u ≠ s) :
    (alUpsert EdgeAttrs.update l (u, v) a).filter (fun e => decide (e.1.1 = s)) =
      l.filter (fun e => decide (e.1.1 = s)) := by
  induction l with
  | nil => simp [alUpsert, h]
  | cons hd tl ih =>
    obtain ⟨⟨x, y⟩, b⟩ := hd
    by_cases h2 : (x, y) = (u, v)
    · obtain ⟨hx, hy⟩ := Prod.mk.injEq .. ▸ h2
      subst hx; subst hy
      simp [alUpsert, h]
    · simp only [alUpsert, h2, if_false]
      by_cases h3 : x = s
      · subst h3; simp [ih]
      · simp [h3, ih]

theorem edgesFrom_add_edge_ne (G : Graph) (u v s : String) (a : EdgeAttrs) (h : u ≠ s) :
    (G.add_edge u v a).edgesFrom s = G.edgesFrom s := by
  rw [Graph.add_edge, Graph.edgesFrom, Graph.edgesFrom]
  exact filterSrc_upsert_ne _ _ _ _ _ h

theorem edgesFrom_add_edge_self_fresh (G : Graph) (s v : String) (a : EdgeAttrs)
    (h : G.get_edge_data s v = none) :
    (G.add_edge s v a).edgesFrom s = G.edgesFrom s ++ [((s, v), a)] := by
  rw [Graph.add_edge, Graph.edgesFrom, Graph.edgesFrom,
    alUpsert_of_lookup_none _ _ _ _ h, List.filter_append]
  simp

theorem get_edge_data_eq_none_of_edgesFrom_nil (G : Graph) (s v : String)
    (h : G.edgesFrom s = []) : G.get_edge_data s v = none := by
  rw [Graph.get_edge_data, alLookup_eq_none_iff]
  intro hm
  obtain ⟨⟨⟨x, y⟩, b⟩, hmem, hfst⟩ := List.mem_map.mp hm
  have hx : x = s := congrArg Prod.fst hfst
  subst hx
  have : (⟨⟨x, y⟩, b⟩ : (String × String) × EdgeAttrs) ∈ G.edgesFrom x := by
    rw [Graph.edgesFrom, List.mem_filter]
    exact ⟨hmem, by simp⟩
  rw [h] at this
  simp at this

theorem keys_upsert_of_lookup_some {κ α : Type} [DecidableEq κ] (m : α → α → α)
    (l : List (κ × α)) (k : κ) (a b : α) (h : alLookup l k = some b) :
    (alUpsert m l k a).map Prod.fst = l.map Prod.fst := by
  induction l with
  | nil => simp [alLookup] at h
  | cons hd tl ih =>
    obtain ⟨k', c⟩ := hd
    by_cases h2 : k' = k
    · subst h2; simp [alUpsert]
    · simp only [alLookup, h2, if_false] at h
      simp [alUpsert, h2, ih h]

theorem nodup_keys_upsert {κ α : Type} [DecidableEq κ] (m : α → α → α)
    (l : List (κ × α)) (k : κ) (a : α) (h : (l.map Prod.fst).Nodup) :
    ((alUpsert m l k a).map Prod.fst).Nodup := by
  rcases hl : alLookup l k with _ | b
  · rw [alUpsert_of_lookup_none _ _ _ _ hl, List.map_append]
    simp only [List.map_cons, List.map_nil]
    rw [List.nodup_append]
    refine ⟨h, List.nodup_singleton k, ?_⟩
    intro x hx hx2
    simp only [List.mem_singleton] at hx2
    subst hx2
    exact (alLookup_eq_none_iff l x).mp hl hx
  · rw [keys_upsert_of_lookup_some _ _ _ _ _ hl]
    exact h

theorem nodeType_add_node_ne (G : Graph) (j : String) (a : NodeAttrs) (i : String)
    (h : i ≠ j) : (G.add_node j a).nodeType i = G.nodeType i := by
  rw [Graph.nodeType, Graph.nodeType, Graph.add_node]
  rw [show ({ G with nodes := alUpsert NodeAttrs.update G.nodes j a } : Graph).nodes =
    alUpsert NodeAttrs.update G.nodes j a from rfl]
  rw [alLookup_upsert_ne _ _ _ _ _ h]

theorem alLookup_filterSrc (l : List ((String × String) × EdgeAttrs)) (s v : String) :
    alLookup (l.filter (fun e => decide (e.1.1 = s))) (s, v) = alLookup l (s, v) := by
  induction l with
  | nil => simp
  | cons hd tl ih =>
    obtain ⟨⟨x, y⟩, b⟩ := hd
    by_cases h2 : x = s
    · subst h2
      by_cases h3 : y = v
      · subst h3; simp [alLookup]
      · have : ¬ ((x, y) = (x, v)) := by simp [h3]
        simp only [List.filter_cons, decide_eq_true_eq, if_pos rfl]
        simp [alLookup, this, ih]
    · have : ¬ ((x, y) = (s, v)) := by simp [h2]
      simp only [List.filter_cons]
      simp [h2, alLookup, this, ih]

theorem get_edge_data_eq_lookup_edgesFrom (G : Graph) (s v : String) :
    G.get_edge_data s v = alLookup (G.edgesFrom s) (s, v) := by
  rw [Graph.get_edge_data, Graph.edgesFrom, alLookup_filterSrc]

/-! ### Effect of `processPatient` on the graph -/

theorem nodes_processPatient (G : Graph) (p : PatientRecord) :
    (processPatient G p).nodes =
      ((((G.add_node p.id (patientAttrs p)).add_node (dietFlexPrefName p)
        (dietPrefAttrs p)).add_node (weightLossPrefName p)
        (weightPrefAttrs p)).add_node (outcomeName p) (outcomeAttrs p)).nodes := by
  simp only [processPatient]
  split_ifs <;> rfl

theorem processPatient_nodes_fresh (G : Graph) (p : PatientRecord)
    (hdisj : ∀ n ∈ recNames p, n ∉ G.nodes.map Prod.fst)
    (hnd : (recNames p).Nodup) :
    (processPatient G p).nodes = G.nodes ++ recNodePairs p := by
  have hd1 : p.id ∉ G.nodes.map Prod.fst := hdisj _ (by simp [recNames])
  have hd2 : dietFlexPrefName p ∉ G.nodes.map Prod.fst := hdisj _ (by simp [recNames])
  have hd3 : weightLossPrefName p ∉ G.nodes.map Prod.fst := hdisj _ (by simp [recNames])
  have hd4 : outcomeName p ∉ G.nodes.map Prod.fst := hdisj _ (by simp [recNames])
  rw [recNames] at hnd
  simp only [List.nodup_cons, List.mem_cons, List.mem_singleton, List.not_mem_nil,
    or_false, List.nodup_nil, and_true] at hnd
  push_neg at hnd
  obtain ⟨⟨n12, n13, n14⟩, ⟨n23, n24⟩, n34, -⟩ := hnd
  rw [nodes_processPatient]
  have e1 : (G.add_node p.id (patientAttrs p)).nodes = G.nodes ++ [(p.id, patientAttrs p)] :=
    add_node_of_fresh _ _ _ hd1
  have e2 : ((G.add_node p.id (patientAttrs p)).add_node (dietFlexPrefName p)
      (dietPrefAttrs p)).nodes =
      (G.add_node p.id (patientAttrs p)).nodes ++ [(dietFlexPrefName p, dietPrefAttrs p)] := by
    refine add_node_of_fresh _ _ _ ?_
    rw [e1]
    simp [hd2, Ne.symm n12]
  have e3 : (((G.add_node p.id (patientAttrs p)).add_node (dietFlexPrefName p)
      (dietPrefAttrs p)).add_node (weightLossPrefName p) (weightPrefAttrs p)).nodes =
      ((G.add_node p.id (patientAttrs p)).add_node (dietFlexPrefName p)
        (dietPrefAttrs p)).nodes ++ [(weightLossPrefName p, weightPrefAttrs p)] := by
    refine add_node_of_fresh _ _ _ ?_
    rw [e2, e1]
    simp [hd3, Ne.symm n13, Ne.symm n23]
  have e4 : ((((G.add_node p.id (patientAttrs p)).add_node (dietFlexPrefName p)
      (dietPrefAttrs p)).add_node (weightLossPrefName p) (weightPrefAttrs p)).add_node
        (outcomeName p) (outcomeAttrs p)).nodes =
      (((G.add_node p.id (patientAttrs p)).add_node (dietFlexPrefName p)
        (dietPrefAttrs p)).add_node (weightLossPrefName p) (weightPrefAttrs p)).nodes ++
        [(outcomeName p, outcomeAttrs p)] := by
    refine add_node_of_fresh _ _ _ ?_
    rw [e3, e2, e1]
    simp [hd4, Ne.symm n14, Ne.symm n24, Ne.symm n34]
  rw [e4, e3, e2, e1, recNodePairs]
  simp

theorem get_edge_data_processPatient_ne (G : Graph) (p : PatientRecord) (u v : String)
    (h : (u, v) ∉ touchedKeys p) :
    (processPatient G p).get_edge_data u v = G.get_edge_data u v := by
  simp only [touchedKeys, List.mem_cons, List.not_mem_nil, or_false] at h
  push_neg at h
  obtain ⟨h1, h2, h3, h4, h5, h6⟩ := h
  simp only [processPatient]
  split_ifs <;>
    simp only [get_edge_data_add_node, get_edge_data_add_edge_ne _ _ _ _ _ _ h1,
      get_edge_data_add_edge_ne _ _ _ _ _ _ h2, get_edge_data_add_edge_ne _ _ _ _ _ _ h3,
      get_edge_data_add_edge_ne _ _ _ _ _ _ h4, get_edge_data_add_edge_ne _ _ _ _ _ _ h5,
      get_edge_data_add_edge_ne _ _ _ _ _ _ h6]

theorem edgesFrom_processPatient_ne (G : Graph) (p : PatientRecord) (s : String)
    (h : s ∉ touchedSources p) :
    (processPatient G p).edgesFrom s = G.edgesFrom s := by
  simp only [touchedSources, List.mem_cons, List.not_mem_nil, or_false] at h
  push_neg at h
  obtain ⟨h1, h2, h3, h4⟩ := h
  simp only [processPatient]
  split_ifs <;>
    simp only [edgesFrom_add_node, edgesFrom_add_edge_ne _ _ _ _ _ (Ne.symm h1),
      edgesFrom_add_edge_ne _ _ _ _ _ (Ne.symm h2),
      edgesFrom_add_edge_ne _ _ _ _ _ (Ne.symm h3),
      edgesFrom_add_edge_ne _ _ _ _ _ (Ne.symm h4)]

theorem nodeType_processPatient_ne (G : Graph) (p : PatientRecord) (i : String)
    (h : i ∉ recNames p) :
    (processPatient G p).nodeType i = G.nodeType i := by
  simp only [recNames, List.mem_cons, List.not_mem_nil, or_false] at h
  push_neg at h
  obtain ⟨h1, h2, h3, h4⟩ := h
  simp only [processPatient]
  split_ifs <;>
    simp only [nodeType_add_edge, nodeType_add_node_ne _ _ _ _ h1,
      nodeType_add_node_ne _ _ _ _ h2, nodeType_add_node_ne _ _ _ _ h3,
      nodeType_add_node_ne _ _ _ _ h4]

theorem edgesFrom_three_patient_edges (G : Graph) (p : PatientRecord)
    (hnil : G.edgesFrom p.id = [])
    (n23 : dietFlexPrefName p ≠ weightLossPrefName p)
    (n24 : dietFlexPrefName p ≠ outcomeName p)
    (n34 : weightLossPrefName p ≠ outcomeName p) :
    (((G.add_edge p.id (dietFlexPrefName p) { relation := "has_preference" }).add_edge
        p.id (weightLossPrefName p) { relation := "has_preference" }).add_edge
        p.id (outcomeName p) { relation := "experiences" }).edgesFrom p.id =
      patientEdges p := by
  have g1 : G.get_edge_data p.id (dietFlexPrefName p) = none :=
    get_edge_data_eq_none_of_edgesFrom_nil _ _ _ hnil
  have e1 : (G.add_edge p.id (dietFlexPrefName p)
      { relation := "has_preference" }).edgesFrom p.id =
      [((p.id, dietFlexPrefName p), { relation := "has_preference" })] := by
    rw [edgesFrom_add_edge_self_fresh _ _ _ _ g1, hnil]
    rfl
  have g2 : (G.add_edge p.id (dietFlexPrefName p)
      { relation := "has_preference" }).get_edge_data p.id (weightLossPrefName p) = none := by
    rw [get_edge_data_eq_lookup_edgesFrom, e1]
    simp [alLookup, n23]
  have e2 : ((G.add_edge p.id (dietFlexPrefName p)
      { relation := "has_preference" }).add_edge p.id (weightLossPrefName p)
      { relation := "has_preference" }).edgesFrom p.id =
      [((p.id, dietFlexPrefName p), { relation := "has_preference" }),
       ((p.id, weightLossPrefName p), { relation := "has_preference" })] := by
    rw [edgesFrom_add_edge_self_fresh _ _ _ _ g2, e1]
    rfl
  have g3 : ((G.add_edge p.id (dietFlexPrefName p)
      { relation := "has_preference" }).add_edge p.id (weightLossPrefName p)
      { relation := "has_preference" }).get_edge_data p.id (outcomeName p) = none := by
    rw [get_edge_data_eq_lookup_edgesFrom, e2]
    simp [alLookup, n24, n34]
  rw [edgesFrom_add_edge_self_fresh _ _ _ _ g3, e2]
  rfl

theorem edgesFrom_processPatient_id (G : Graph) (p : PatientRecord)
    (hnil : G.edgesFrom p.id = [])
    (hnd : (recNames p).Nodup)
    (hCI : p.id ≠ "Calorie_Intake_CSV") (hAL : p.id ≠ "Activity_Level_CSV") :
    (processPatient G p).edgesFrom p.id = patientEdges p := by
  rw [recNames] at hnd
  simp only [List.nodup_cons, List.mem_cons, List.not_mem_nil, or_false,
    List.nodup_nil, and_true] at hnd
  push_neg at hnd
  obtain ⟨⟨n12, n13, n14⟩, ⟨n23, n24⟩, n34, -⟩ := hnd
  simp only [processPatient]
  split_ifs <;>
    (try simp only [edgesFrom_add_node, edgesFrom_add_edge_ne _ _ _ _ _ (Ne.symm n12),
      edgesFrom_add_edge_ne _ _ _ _ _ (Ne.symm hCI),
      edgesFrom_add_edge_ne _ _ _ _ _ (Ne.symm hAL)]) <;>
    exact edgesFrom_three_patient_edges _ _ hnil n23 n24 n34

theorem edgesFrom_processPatient_dfp (G : Graph) (p : PatientRecord)
    (hnil : G.edgesFrom (dietFlexPrefName p) = [])
    (hnd : (recNames p).Nodup)
    (hCI : dietFlexPrefName p ≠ "Calorie_Intake_CSV")
    (hAL : dietFlexPrefName p ≠ "Activity_Level_CSV") :
    (processPatient G p).edgesFrom (dietFlexPrefName p) =
      if ruleR1 p then
        [((dietFlexPrefName p, "Calorie_Intake_CSV"), conflictEdgeAttrs p)]
      else [] := by
  rw [recNames] at hnd
  simp only [List.nodup_cons, List.mem_cons, List.not_mem_nil, or_false,
    List.nodup_nil, and_true] at hnd
  push_neg at hnd
  obtain ⟨⟨n12, n13, n14⟩, ⟨n23, n24⟩, n34, -⟩ := hnd
  have hfresh : ∀ H : Graph, H.edgesFrom (dietFlexPrefName p) = [] →
      ((((H.add_edge p.id (dietFlexPrefName p)
          { relation := "has_preference" }).add_edge p.id (weightLossPrefName p)
          { relation := "has_preference" }).add_edge p.id (outcomeName p)
          { relation := "experiences" }).add_edge (dietFlexPrefName p) "Calorie_Intake_CSV"
          (conflictEdgeAttrs p)).edgesFrom (dietFlexPrefName p) =
      [((dietFlexPrefName p, "Calorie_Intake_CSV"), conflictEdgeAttrs p)] := by
    intro H hH
    have hH3 : (((H.add_edge p.id (dietFlexPrefName p)
        { relation := "has_preference" }).add_edge p.id (weightLossPrefName p)
        { relation := "has_preference" }).add_edge p.id (outcomeName p)
        { relation := "experiences" }).edgesFrom (dietFlexPrefName p) = [] := by
      simp only [edgesFrom_add_edge_ne _ _ _ _ _ n12]
      exact hH
    rw [edgesFrom_add_edge_self_fresh _ _ _ _
      (get_edge_data_eq_none_of_edgesFrom_nil _ _ _ hH3), hH3]
    rfl
  simp only [processPatient, conflictEdgeAttrs]
  split_ifs with hr1 <;>
    (try simp only [edgesFrom_add_node, edgesFrom_add_edge_ne _ _ _ _ _ n12,
      edgesFrom_add_edge_ne _ _ _ _ _ (Ne.symm hCI),
      edgesFrom_add_edge_ne _ _ _ _ _ (Ne.symm hAL)])
  all_goals
    first
      | (exact hfresh _ hnil)
      | (exact hnil)

theorem edgesFrom_processPatient_wlp (G : Graph) (p : PatientRecord)
    (hnil : G.edgesFrom (weightLossPrefName p) = [])
    (hnd : (recNames p).Nodup)
    (hCI : weightLossPrefName p ≠ "Calorie_Intake_CSV")
    (hAL : weightLossPrefName p ≠ "Activity_Level_CSV") :
    (processPatient G p).edgesFrom (weightLossPrefName p) = [] := by
  rw [recNames] at hnd
  simp only [List.nodup_cons, List.mem_cons, List.not_mem_nil, or_false,
    List.nodup_nil, and_true] at hnd
  push_neg at hnd
  obtain ⟨⟨n12, n13, n14⟩, ⟨n23, n24⟩, n34, -⟩ := hnd
  simp only [processPatient]
  split_ifs <;>
    (try simp only [edgesFrom_add_node, edgesFrom_add_edge_ne _ _ _ _ _ n13,
      edgesFrom_add_edge_ne _ _ _ _ _ n23,
      edgesFrom_add_edge_ne _ _ _ _ _ (Ne.symm hCI),
      edgesFrom_add_edge_ne _ _ _ _ _ (Ne.symm hAL)]) <;>
    exact hnil

theorem ci_out_processPatient (G : Graph) (p : PatientRecord)
    (hprior : G.get_edge_data "Calorie_Intake_CSV" (outcomeName p) = none)
    (hid : p.id ≠ "Calorie_Intake_CSV")
    (hout : outcomeName p ≠ "Calorie_Intake_CSV") :
    (processPatient G p).get_edge_data "Calorie_Intake_CSV" (outcomeName p) =
      ciOutFinal p := by
  have k1 : ("Calorie_Intake_CSV", outcomeName p) ≠ (p.id, dietFlexPrefName p) := by
    intro hh; exact hid (congrArg Prod.fst hh).symm
  have k2 : ("Calorie_Intake_CSV", outcomeName p) ≠ (p.id, weightLossPrefName p) := by
    intro hh; exact hid (congrArg Prod.fst hh).symm
  have k3 : ("Calorie_Intake_CSV", outcomeName p) ≠ (p.id, outcomeName p) := by
    intro hh; exact hid (congrArg Prod.fst hh).symm
  have k4 : ("Calorie_Intake_CSV", outcomeName p) ≠
      (dietFlexPrefName p, "Calorie_Intake_CSV") := by
    intro hh; exact hout (congrArg Prod.snd hh)
  have k5 : ("Calorie_Intake_CSV", outcomeName p) ≠
      ("Activity_Level_CSV", outcomeName p) := by
    intro hh
    have := congrArg Prod.fst hh
    simp at this
  simp only [processPatient, ciOutFinal]
  split_ifs <;>
    simp only [get_edge_data_add_node, get_edge_data_add_edge_ne _ _ _ _ _ _ k1,
      get_edge_data_add_edge_ne _ _ _ _ _ _ k2, get_edge_data_add_edge_ne _ _ _ _ _ _ k3,
      get_edge_data_add_edge_ne _ _ _ _ _ _ k4, get_edge_data_add_edge_ne _ _ _ _ _ _ k5,
      get_edge_data_add_edge_self, hprior] <;>
    simp [writeOver, EdgeAttrs.update, optUpdate]

/-! ### From the freshness hypothesis to the facts the inductions need -/

theorem recNodePairs_keys (p : PatientRecord) :
    (recNodePairs p).map Prod.fst = recNames p := rfl

theorem sharedNodePairs_keys : sharedNodePairs.map Prod.fst = sharedNames := rfl

theorem sublist_flatMap_recNames {p : PatientRecord} {rs : List PatientRecord}
    (hp : p ∈ rs) : List.Sublist (recNames p) (rs.flatMap recNames) := by
  induction rs with
  | nil => simp at hp
  | cons q rs ih =>
    rcases List.mem_cons.mp hp with h | h
    · subst h
      rw [List.flatMap_cons]
      exact List.sublist_append_left _ _
    · rw [List.flatMap_cons]
      exact (ih h).trans (List.sublist_append_right _ _)

theorem freshNames_tail {p : PatientRecord} {rs : List PatientRecord}
    (h : FreshNames (p :: rs)) : FreshNames rs := by
  rw [FreshNames] at h ⊢
  refine h.sublist ?_
  rw [List.flatMap_cons]
  exact (List.sublist_append_right (recNames p) _).append_left sharedNames

theorem freshNames_flatMap_nodup {rs : List PatientRecord} (h : FreshNames rs) :
    (rs.flatMap recNames).Nodup :=
  (List.nodup_append.mp h).2.1

theorem freshNames_recNodup {rs : List PatientRecord} (h : FreshNames rs) :
    ∀ q ∈ rs, (recNames q).Nodup := by
  intro q hq
  exact (freshNames_flatMap_nodup h).sublist (sublist_flatMap_recNames hq)

theorem freshNames_shared {rs : List PatientRecord} (h : FreshNames rs) :
    ∀ q ∈ rs, ∀ n ∈ recNames q, ∀ s ∈ sharedNames, n ≠ s := by
  intro q hq n hn s hs he
  subst he
  exact (List.nodup_append.mp h).2.2 hs (List.mem_flatMap.mpr ⟨q, hq, hn⟩)

theorem freshNames_pairwise {rs : List PatientRecord} (h : FreshNames rs) :
    rs.Pairwise (fun q q' => ∀ n ∈ recNames q, ∀ m ∈ recNames q', n ≠ m) := by
  induction rs with
  | nil => exact List.Pairwise.nil
  | cons q rs ih =>
    refine List.Pairwise.cons ?_ (ih (freshNames_tail h))
    intro q' hq' n hn m hm he
    subst he
    have hflat : (recNames q ++ rs.flatMap recNames).Nodup := by
      have := freshNames_flatMap_nodup h
      rw [List.flatMap_cons] at this
      exact this
    exact (List.nodup_append.mp hflat).2.2 hn (List.mem_flatMap.mpr ⟨q', hq', hm⟩)

/-! ### Frame lemmas along the patient loop -/

theorem foldl_get_edge_data_ne (rs : List PatientRecord) (G : Graph) (u v : String)
    (h : ∀ q ∈ rs, (u, v) ∉ touchedKeys q) :
    ((rs.foldl processPatient G).get_edge_data u v) = G.get_edge_data u v := by
  induction rs generalizing G with
  | nil => rfl
  | cons q rs ih =>
    rw [List.foldl_cons, ih _ (fun q' hq' => h q' (List.mem_cons_of_mem q hq')),
      get_edge_data_processPatient_ne _ _ _ _ (h q (List.mem_cons_self q rs))]

theorem foldl_edgesFrom_ne (rs : List PatientRecord) (G : Graph) (s : String)
    (h : ∀ q ∈ rs, s ∉ touchedSources q) :
    ((rs.foldl processPatient G).edgesFrom s) = G.edgesFrom s := by
  induction rs generalizing G with
  | nil => rfl
  | cons q rs ih =>
    rw [List.foldl_cons, ih _ (fun q' hq' => h q' (List.mem_cons_of_mem q hq')),
      edgesFrom_processPatient_ne _ _ _ (h q (List.mem_cons_self q rs))]

theorem nodup_keys_add_edge (G : Graph) (u v : String) (a : EdgeAttrs)
    (h : (G.edges.map Prod.fst).Nodup) :
    ((G.add_edge u v a).edges.map Prod.fst).Nodup :=
  nodup_keys_upsert _ _ _ _ h

theorem edges_keys_nodup_processPatient (G : Graph) (p : PatientRecord)
    (h : (G.edges.map Prod.fst).Nodup) :
    ((processPatient G p).edges.map Prod.fst).Nodup := by
  simp only [processPatient]
  split_ifs <;> (repeat apply nodup_keys_add_edge) <;> exact h

/-! ### The built graph at one record -/

theorem foldl_master (rs : List PatientRecord) (G : Graph)
    (hinit : ∀ q ∈ rs, G.edgesFrom q.id = [] ∧ G.edgesFrom (dietFlexPrefName q) = [] ∧
      G.edgesFrom (weightLossPrefName q) = [] ∧
      G.get_edge_data "Calorie_Intake_CSV" (outcomeName q) = none)
    (hnd : ∀ q ∈ rs, (recNames q).Nodup)
    (hsh : ∀ q ∈ rs, ∀ n ∈ recNames q, ∀ s ∈ sharedNames, n ≠ s)
    (hpw : rs.Pairwise (fun q q' => ∀ n ∈ recNames q, ∀ m ∈ recNames q', n ≠ m)) :
    ∀ p ∈ rs,
      (rs.foldl processPatient G).edgesFrom p.id = patientEdges p ∧
      (rs.foldl processPatient G).edgesFrom (dietFlexPrefName p) =
        (if ruleR1 p then
          [((dietFlexPrefName p, "Calorie_Intake_CSV"), conflictEdgeAttrs p)] else []) ∧
      (rs.foldl processPatient G).edgesFrom (weightLossPrefName p) = [] ∧
      (rs.foldl processPatient G).get_edge_data "Calorie_Intake_CSV" (outcomeName p) =
        ciOutFinal p := by
  induction rs generalizing G with
  | nil => intro p hp; simp at hp
  | cons q rs ih =>
    rw [List.pairwise_cons] at hpw
    obtain ⟨hq_rest, hpw'⟩ := hpw
    have hshared : ∀ r ∈ q :: rs, ∀ n ∈ recNames r,
        n ≠ "Calorie_Intake_CSV" ∧ n ≠ "Activity_Level_CSV" := by
      intro r hr n hn
      exact ⟨hsh r hr n hn _ (by simp [sharedNames]), hsh r hr n hn _ (by simp [sharedNames])⟩
    intro p hp
    rcases List.mem_cons.mp hp with heq | hp'
    · subst heq
      have hqmem : p ∈ p :: rs := List.mem_cons_self p rs
      obtain ⟨hq_id_nil, hq_dfp_nil, hq_wlp_nil, hq_ci_none⟩ := hinit p hqmem
      have hq_nd := hnd p hqmem
      rw [List.foldl_cons]
      have a1 : (processPatient G p).edgesFrom p.id = patientEdges p :=
        edgesFrom_processPatient_id G p hq_id_nil hq_nd
          (hshared p hqmem p.id (by simp [recNames])).1
          (hshared p hqmem p.id (by simp [recNames])).2
      have a2 := edgesFrom_processPatient_dfp G p hq_dfp_nil hq_nd
          (hshared p hqmem (dietFlexPrefName p) (by simp [recNames])).1
          (hshared p hqmem (dietFlexPrefName p) (by simp [recNames])).2
      have a3 := edgesFrom_processPatient_wlp G p hq_wlp_nil hq_nd
          (hshared p hqmem (weightLossPrefName p) (by simp [recNames])).1
          (hshared p hqmem (weightLossPrefName p) (by simp [recNames])).2
      have a4 := ci_out_processPatient G p hq_ci_none
          (hshared p hqmem p.id (by simp [recNames])).1
          (hshared p hqmem (outcomeName p) (by simp [recNames])).1
      have f_src : ∀ x, x ∈ recNames p → ∀ q' ∈ rs, x ∉ touchedSources q' := by
        intro x hx q' hq'
        have hx_rec : ∀ m ∈ recNames q', x ≠ m := fun m hm => hq_rest q' hq' x hx m hm
        simp only [touchedSources, List.mem_cons, List.not_mem_nil, or_false]
        push_neg
        exact ⟨hx_rec _ (by simp [recNames]), hx_rec _ (by simp [recNames]),
          (hshared p hqmem x hx).1, (hshared p hqmem x hx).2⟩
      refine ⟨?_, ?_, ?_, ?_⟩
      · rw [foldl_edgesFrom_ne _ _ _ (f_src p.id (by simp [recNames])), a1]
      · rw [foldl_edgesFrom_ne _ _ _ (f_src (dietFlexPrefName p) (by simp [recNames])), a2]
      · rw [foldl_edgesFrom_ne _ _ _ (f_src (weightLossPrefName p) (by simp [recNames])), a3]
      · have f_key : ∀ q' ∈ rs, ("Calorie_Intake_CSV", outcomeName p) ∉ touchedKeys q' := by
          intro q' hq'
          have hci_q' : ∀ m ∈ recNames q', m ≠ "Calorie_Intake_CSV" :=
            fun m hm => (hshared q' (List.mem_cons_of_mem _ hq') m hm).1
          have hout : outcomeName p ≠ outcomeName q' :=
            hq_rest q' hq' _ (by simp [recNames]) _ (by simp [recNames])
          simp only [touchedKeys, List.mem_cons, List.not_mem_nil, or_false]
          push_neg
          refine ⟨?_, ?_, ?_, ?_, ?_, ?_⟩
          · intro hh; exact hci_q' _ (by simp [recNames]) (congrArg Prod.fst hh).symm
          · intro hh; exact hci_q' _ (by simp [recNames]) (congrArg Prod.fst hh).symm
          · intro hh; exact hci_q' _ (by simp [recNames]) (congrArg Prod.fst hh).symm
          · intro hh; exact hci_q' _ (by simp [recNames]) (congrArg Prod.fst hh).symm
          · intro hh; exact hout (congrArg Prod.snd hh)
          · intro hh; have := congrArg Prod.fst hh; simp at this
        rw [foldl_get_edge_data_ne _ _ _ _ f_key, a4]
    · rw [List.foldl_cons]
      have hqmem : q ∈ q :: rs := List.mem_cons_self q rs
      refine ih (processPatient G q) ?_
        (fun r hr => hnd r (List.mem_cons_of_mem q hr))
        (fun r hr => hsh r (List.mem_cons_of_mem q hr)) hpw' p hp'
      intro r hr
      have hq_r : ∀ n ∈ recNames q, ∀ m ∈ recNames r, n ≠ m := hq_rest r hr
      have h_src : ∀ x, x ∈ recNames r → x ∉ touchedSources q := by
        intro x hx
        simp only [touchedSources, List.mem_cons, List.not_mem_nil, or_false]
        push_neg
        exact ⟨Ne.symm (hq_r _ (by simp [recNames]) x hx),
          Ne.symm (hq_r _ (by simp [recNames]) x hx),
          (hshared r (List.mem_cons_of_mem q hr) x hx).1,
          (hshared r (List.mem_cons_of_mem q hr) x hx).2⟩
      obtain ⟨hi1, hi2, hi3, hi4⟩ := hinit r (List.mem_cons_of_mem q hr)
      refine ⟨?_, ?_, ?_, ?_⟩
      · rw [edgesFrom_processPatient_ne _ _ _ (h_src r.id (by simp [recNames]))]
        exact hi1
      · rw [edgesFrom_processPatient_ne _ _ _
          (h_src (dietFlexPrefName r) (by simp [recNames]))]
        exact hi2
      · rw [edgesFrom_processPatient_ne _ _ _
          (h_src (weightLossPrefName r) (by simp [recNames]))]
        exact hi3
      · have hci_q : ∀ m ∈ recNames q, m ≠ "Calorie_Intake_CSV" :=
          fun m hm => (hshared q hqmem m hm).1
        have hk : ("Calorie_Intake_CSV", outcomeName r) ∉ touchedKeys q := by
          simp only [touchedKeys, List.mem_cons, List.not_mem_nil, or_false]
          push_neg
          refine ⟨?_, ?_, ?_, ?_, ?_, ?_⟩
          · intro hh; exact hci_q _ (by simp [recNames]) (congrArg Prod.fst hh).symm
          · intro hh; exact hci_q _ (by simp [recNames]) (congrArg Prod.fst hh).symm
          · intro hh; exact hci_q _ (by simp [recNames]) (congrArg Prod.fst hh).symm
          · intro hh; exact hci_q _ (by simp [recNames]) (congrArg Prod.fst hh).symm
          · intro hh
            exact (hq_r _ (by simp [recNames]) _ (by simp [recNames]))
              (congrArg Prod.snd hh).symm
          · intro hh; have := congrArg Prod.fst hh; simp at this
        rw [get_edge_data_processPatient_ne _ _ _ _ hk]
        exact hi4

theorem sharedInit_nodes : sharedInit.nodes = sharedNodePairs := by
  decide

theorem sharedInit_edges : sharedInit.edges = [] := rfl

theorem build_master (rs : List PatientRecord) (h : FreshNames rs) :
    ∀ p ∈ rs,
      (build_graph_from_csv rs).edgesFrom p.id = patientEdges p ∧
      (build_graph_from_csv rs).edgesFrom (dietFlexPrefName p) =
        (if ruleR1 p then
          [((dietFlexPrefName p, "Calorie_Intake_CSV"), conflictEdgeAttrs p)] else []) ∧
      (build_graph_from_csv rs).edgesFrom (weightLossPrefName p) = [] ∧
      (build_graph_from_csv rs).get_edge_data "Calorie_Intake_CSV" (outcomeName p) =
        ciOutFinal p := by
  refine foldl_master rs sharedInit ?_ (freshNames_recNodup h) (freshNames_shared h)
    (freshNames_pairwise h)
  intro q _
  exact ⟨rfl, rfl, rfl, rfl⟩

theorem foldl_nodes (rs : List PatientRecord) (G : Graph)
    (h : ((G.nodes.map Prod.fst) ++ rs.flatMap recNames).Nodup) :
    (rs.foldl processPatient G).nodes = G.nodes ++ rs.flatMap recNodePairs := by
  induction rs generalizing G with
  | nil => simp
  | cons p rs ih =>
    rw [List.flatMap_cons] at h
    have hsplit := List.nodup_append.mp h
    rw [List.foldl_cons]
    have hstep : (processPatient G p).nodes = G.nodes ++ recNodePairs p := by
      refine processPatient_nodes_fresh G p ?_ ?_
      · intro n hn hmem
        exact (List.nodup_append.mp h).2.2 hmem
          (List.mem_append_left _ hn)
      · exact ((List.nodup_append.mp hsplit.2.1).1)
    have hkeys : (processPatient G p).nodes.map Prod.fst =
        G.nodes.map Prod.fst ++ recNames p := by
      rw [hstep, List.map_append, recNodePairs_keys]
    rw [ih (processPatient G p) (by
      rw [hkeys, List.append_assoc]
      exact h), hstep, List.flatMap_cons, List.append_assoc]

theorem build_nodes (rs : List PatientRecord) (h : FreshNames rs) :
    (build_graph_from_csv rs).nodes = sharedNodePairs ++ rs.flatMap recNodePairs := by
  rw [build_graph_from_csv, foldl_nodes rs sharedInit (by
    rw [sharedInit_nodes, sharedNodePairs_keys]; exact h), sharedInit_nodes]

theorem flatMap_recNodePairs_keys (rs : List PatientRecord) :
    (rs.flatMap recNodePairs).map Prod.fst = rs.flatMap recNames := by
  induction rs with
  | nil => rfl
  | cons p rs ih => simp only [List.flatMap_cons, List.map_append, ih, recNodePairs_keys]

theorem build_nodes_keys (rs : List PatientRecord) (h : FreshNames rs) :
    (build_graph_from_csv rs).nodes.map Prod.fst = sharedNames ++ rs.flatMap recNames := by
  rw [build_nodes rs h, List.map_append, sharedNodePairs_keys, flatMap_recNodePairs_keys]

theorem build_lookup (rs : List PatientRecord) (h : FreshNames rs) (k : String)
    (a : NodeAttrs) (hm : (k, a) ∈ sharedNodePairs ++ rs.flatMap recNodePairs) :
    alLookup (build_graph_from_csv rs).nodes k = some a := by
  rw [build_nodes rs h]
  refine alLookup_of_mem_of_nodup _ _ _ ?_ hm
  rw [show (sharedNodePairs ++ rs.flatMap recNodePairs).map Prod.fst =
      sharedNames ++ rs.flatMap recNames from by
    rw [List.map_append, sharedNodePairs_keys, flatMap_recNodePairs_keys]]
  exact h

theorem build_nodeType_id (rs : List PatientRecord) (h : FreshNames rs)
    (p : PatientRecord) (hp : p ∈ rs) :
    (build_graph_from_csv rs).nodeType p.id = some "Patient" := by
  rw [Graph.nodeType, build_lookup rs h p.id (patientAttrs p) (List.mem_append_right _
    (List.mem_flatMap.mpr ⟨p, hp, by simp [recNodePairs]⟩))]
  rfl

theorem build_nodeType_dfp (rs : List PatientRecord) (h : FreshNames rs)
    (p : PatientRecord) (hp : p ∈ rs) :
    (build_graph_from_csv rs).nodeType (dietFlexPrefName p) = some "Preference" := by
  rw [Graph.nodeType, build_lookup rs h (dietFlexPrefName p) (dietPrefAttrs p)
    (List.mem_append_right _ (List.mem_flatMap.mpr ⟨p, hp, by simp [recNodePairs]⟩))]
  rfl

theorem build_nodeType_wlp (rs : List PatientRecord) (h : FreshNames rs)
    (p : PatientRecord) (hp : p ∈ rs) :
    (build_graph_from_csv rs).nodeType (weightLossPrefName p) = some "Preference" := by
  rw [Graph.nodeType, build_lookup rs h (weightLossPrefName p) (weightPrefAttrs p)
    (List.mem_append_right _ (List.mem_flatMap.mpr ⟨p, hp, by simp [recNodePairs]⟩))]
  rfl

theorem build_nodeType_out (rs : List PatientRecord) (h : FreshNames rs)
    (p : PatientRecord) (hp : p ∈ rs) :
    (build_graph_from_csv rs).nodeType (outcomeName p) = some "Outcome" := by
  rw [Graph.nodeType, build_lookup rs h (outcomeName p) (outcomeAttrs p)
    (List.mem_append_right _ (List.mem_flatMap.mpr ⟨p, hp, by simp [recNodePairs]⟩))]
  rfl

theorem build_hasNode_id (rs : List PatientRecord) (h : FreshNames rs)
    (p : PatientRecord) (hp : p ∈ rs) :
    (build_graph_from_csv rs).hasNode p.id = true := by
  rw [Graph.hasNode, build_lookup rs h p.id (patientAttrs p) (List.mem_append_right _
    (List.mem_flatMap.mpr ⟨p, hp, by simp [recNodePairs]⟩))]
  rfl

theorem build_successors_id (rs : List PatientRecord) (h : FreshNames rs)
    (p : PatientRecord) (hp : p ∈ rs) :
    (build_graph_from_csv rs).successors p.id =
      [dietFlexPrefName p, weightLossPrefName p, outcomeName p] := by
  rw [Graph.successors, (build_master rs h p hp).1]
  rfl

theorem build_successors_dfp (rs : List PatientRecord) (h : FreshNames rs)
    (p : PatientRecord) (hp : p ∈ rs) :
    (build_graph_from_csv rs).successors (dietFlexPrefName p) =
      if ruleR1 p then ["Calorie_Intake_CSV"] else [] := by
  rw [Graph.successors, (build_master rs h p hp).2.1]
  split_ifs <;> rfl

theorem build_successors_wlp (rs : List PatientRecord) (h : FreshNames rs)
    (p : PatientRecord) (hp : p ∈ rs) :
    (build_graph_from_csv rs).successors (weightLossPrefName p) = [] := by
  rw [Graph.successors, (build_master rs h p hp).2.2.1]
  rfl

theorem build_patientOutcomes (rs : List PatientRecord) (h : FreshNames rs)
    (p : PatientRecord) (hp : p ∈ rs) :
    patientOutcomes (build_graph_from_csv rs) p.id = [outcomeName p] := by
  rw [patientOutcomes, build_successors_id rs h p hp]
  simp [List.filter, build_nodeType_dfp rs h p hp, build_nodeType_wlp rs h p hp,
    build_nodeType_out rs h p hp]

theorem build_patientPreferences (rs : List PatientRecord) (h : FreshNames rs)
    (p : PatientRecord) (hp : p ∈ rs) :
    patientPreferences (build_graph_from_csv rs) p.id =
      [dietFlexPrefName p, weightLossPrefName p] := by
  rw [patientPreferences, build_successors_id rs h p hp]
  simp [List.filter, build_nodeType_dfp rs h p hp, build_nodeType_wlp rs h p hp,
    build_nodeType_out rs h p hp]

theorem build_get_edge_data_dfp_ci (rs : List PatientRecord) (h : FreshNames rs)
    (p : PatientRecord) (hp : p ∈ rs) (hr1 : ruleR1 p) :
    (build_graph_from_csv rs).get_edge_data (dietFlexPrefName p) "Calorie_Intake_CSV" =
      some (conflictEdgeAttrs p) := by
  rw [get_edge_data_eq_lookup_edgesFrom, (build_master rs h p hp).2.1, if_pos hr1]
  simp [alLookup]

theorem build_conflictPairs_r1 (rs : List PatientRecord) (h : FreshNames rs)
    (p : PatientRecord) (hp : p ∈ rs) (hr1 : ruleR1 p) (hr3 : ¬ ruleR3 p)
    (hr4 : ¬ ruleR4 p) :
    conflictPairs (build_graph_from_csv rs)
      [dietFlexPrefName p, weightLossPrefName p] [outcomeName p] =
      [({ preference := dietFlexPrefName p
          conflict_relation := "conflicts_with"
          behavior := "Calorie_Intake_CSV"
          behavior_relation := "influences"
          outcome := outcomeName p },
        conflictExplanation (dietFlexPrefName p) "Calorie_Intake_CSV"
          (conflictEdgeAttrs p)
          { relation := "influences", effect := some (r1Effect p) } (outcomeName p))] := by
  have hci : (build_graph_from_csv rs).get_edge_data "Calorie_Intake_CSV"
      (outcomeName p) = some { relation := "influences", effect := some (r1Effect p) } := by
    rw [(build_master rs h p hp).2.2.2]
    simp [ciOutFinal, hr1, hr3, hr4]
  rw [conflictPairs]
  simp only [List.flatMap_cons, List.flatMap_nil, List.append_nil]
  rw [build_successors_dfp rs h p hp, if_pos hr1, build_successors_wlp rs h p hp]
  simp only [List.flatMap_cons, List.flatMap_nil, List.append_nil]
  rw [build_get_edge_data_dfp_ci rs h p hp hr1]
  simp [conflictEdgeAttrs, List.filterMap, hci]

theorem build_conflictPairs_nor1 (rs : List PatientRecord) (h : FreshNames rs)
    (p : PatientRecord) (hp : p ∈ rs) (hr1 : ¬ ruleR1 p) :
    conflictPairs (build_graph_from_csv rs)
      [dietFlexPrefName p, weightLossPrefName p] [outcomeName p] = [] := by
  rw [conflictPairs]
  simp only [List.flatMap_cons, List.flatMap_nil, List.append_nil]
  rw [build_successors_dfp rs h p hp, if_neg hr1, build_successors_wlp rs h p hp]
  simp

/-! ### Unfolding the retriever -/

theorem retrieve_context_not_found (G : Graph) (pid qi : String)
    (h : G.hasNode pid = false) :
    retrieve_context G pid qi = ([notFoundLine pid], []) := by
  rw [retrieve_context, if_pos h]

theorem retrieve_context_found (G : Graph) (pid qi : String) (h : G.hasNode pid = true) :
    retrieve_context G pid qi =
      (if conflictPairs G (patientPreferences G pid) (patientOutcomes G pid) = [] then
        (headerLine G pid :: noConflictsLine :: fallbackLines G (patientOutcomes G pid), [])
      else
        (headerLine G pid ::
          (conflictPairs G (patientPreferences G pid) (patientOutcomes G pid)).map Prod.snd,
         (conflictPairs G (patientPreferences G pid)
           (patientOutcomes G pid)).map Prod.fst)) := by
  rw [retrieve_context, if_neg (by simp [h])]

theorem flatMap_filter_eq {α β : Type} (q : α → Bool) (f : α → List β) (l : List α) :
    (l.filter q).flatMap f = l.flatMap (fun x => if q x then f x else []) := by
  induction l with
  | nil => rfl
  | cons hd tl ih =>
    by_cases hq : q hd
    · simp [List.filter_cons, hq, ih]
    · simp [List.filter_cons, hq, ih]

theorem conflictPairs_fst (G : Graph) (pid : String) :
    (conflictPairs G (patientPreferences G pid) (patientOutcomes G pid)).map Prod.fst =
      specConflictSearch G pid := by
  rw [conflictPairs, specConflictSearch, List.map_flatMap]
  congr 1
  funext pref
  rw [List.map_flatMap, flatMap_filter_eq]
  congr 1
  funext nb
  rcases hed : G.get_edge_data pref nb with _ | ed
  · simp
  · simp only [Option.map_some]
    by_cases hrel : ed.relation = "conflicts_with"
    · rw [if_pos hrel, if_pos (by simp [hrel]), List.map_filterMap]
      congr 1
      funext o
      rcases hio : G.get_edge_data nb o with _ | io <;> simp
    · rw [if_neg hrel, if_neg (by simp [hrel])]
      simp

theorem foldl_edges_keys_nodup (rs : List PatientRecord) (G : Graph)
    (h : (G.edges.map Prod.fst).Nodup) :
    (((rs.foldl processPatient G).edges.map Prod.fst)).Nodup := by
  induction rs generalizing G with
  | nil => exact h
  | cons p rs ih =>
    rw [List.foldl_cons]
    exact ih _ (edges_keys_nodup_processPatient G p h)

/-! ### The claims -/

/-- C1: the graph store keeps at most one edge per ordered `(source, target)`
pair — the edge keys of every built graph are pairwise distinct, so a second
`add_edge` on the same pair overwrites attributes instead of creating a
parallel edge — and consequently, for every well-formed batch and every record
for which both R1 and R4 fire (diet-flexibility class High, caloric-intake
class High, daily-steps class High, weight-change category Slow or Increase),
the final edge `Calorie_Intake_CSV → <id>_Outcome` carries relation
`compensates_for` with R4's reason, because R4 is evaluated after R1. -/
theorem claim_c1_edge_overwrite :
    (∀ rs : List PatientRecord,
      (((build_graph_from_csv rs).edges.map Prod.fst)).Nodup) ∧
    (∀ (rs : List PatientRecord) (p : PatientRecord), FreshNames rs → p ∈ rs →
      ruleR1 p → ruleR4 p →
      (build_graph_from_csv rs).get_edge_data "Calorie_Intake_CSV" (outcomeName p) =
        some { relation := "compensates_for", reason := some r4Reason,
               effect := some (r1Effect p) }) := by
  constructor
  · intro rs
    rw [build_graph_from_csv]
    exact foldl_edges_keys_nodup rs sharedInit (by rw [sharedInit_edges]; exact List.nodup_nil)
  · intro rs p h hp hr1 hr4
    have hr3 : ¬ ruleR3 p := by
      intro hr3
      rw [ruleR3] at hr3
      rw [ruleR4] at hr4
      rw [hr4.1] at hr3
      exact absurd hr3.1 (by decide)
    rw [(build_master rs h p hp).2.2.2]
    simp [ciOutFinal, hr1, hr3, hr4, writeOver, EdgeAttrs.update, optUpdate]

/-- Witness for C1 at a concrete batch: a single record with diet High,
intake High, steps High and category Slow. -/
theorem claim_c1_edge_overwrite_witness :
    FreshNames [recR1R4] ∧
      (build_graph_from_csv [recR1R4]).get_edge_data "Calorie_Intake_CSV"
        (outcomeName recR1R4) =
        some { relation := "compensates_for", reason := some r4Reason,
               effect := some (r1Effect recR1R4) } :=
  ⟨by decide, claim_c1_edge_overwrite.2 [recR1R4] recR1R4 (by decide)
    (List.mem_cons_self recR1R4 []) (by decide) (by decide)⟩

/-- C2: for every graph and identifier not present as a node, `retrieve`
returns exactly the single not-found line and an empty evidence sequence; the
embedding is a total function, so no exception reaches the caller and no
further retrieval step runs. -/
theorem claim_c2_not_found (G : Graph) (pid qi : String) (h : G.hasNode pid = false) :
    retrieve_context G pid qi =
      (["Patient " ++ pid ++ " not found in knowledge graph."], []) :=
  retrieve_context_not_found G pid qi h

/-- Witness for C2: an identifier absent from the graph built from the empty
batch. -/
theorem claim_c2_not_found_witness :
    (build_graph_from_csv []).hasNode "P9" = false ∧
      retrieve_context (build_graph_from_csv []) "P9" "explain_outcome" =
        (["Patient P9 not found in knowledge graph."], []) :=
  ⟨by decide, claim_c2_not_found (build_graph_from_csv []) "P9" "explain_outcome" (by decide)⟩

/-- Counterexample to C3 as stated: for the specification's scenario record
(diet-flexibility High, caloric-intake High, daily-steps Low, category Slow),
R3 also fires and overwrites the relation of `Calorie_Intake_CSV → P1_Outcome`
from `influences` to `dominates`, so the single returned chain has
`behavior_relation = "dominates"`, no chain has `"influences"`, and no
reasoning line contains the substring `Slow`. -/
theorem claim_c3_counterexample :
    (retrieve_context (build_graph_from_csv [recScenarioP1]) "P1" "explain_outcome").2 =
      [{ preference := "P1_DietFlexPref", conflict_relation := "conflicts_with",
         behavior := "Calorie_Intake_CSV", behavior_relation := "dominates",
         outcome := "P1_Outcome" }] ∧
    (∀ c ∈ (retrieve_context (build_graph_from_csv [recScenarioP1]) "P1"
        "explain_outcome").2, c.behavior_relation ≠ "influences") ∧
    (∀ line ∈ (retrieve_context (build_graph_from_csv [recScenarioP1]) "P1"
        "explain_outcome").1, strMentions line "Slow" = false) := by
  refine ⟨by decide, by decide, by decide⟩

/-- C3 amended: for a record that triggers R1 and triggers neither R3 nor R4
(so the `influences` relation written by R1 is not overwritten), `retrieve`
returns exactly one evidence chain, whose `behavior_relation` is
`"influences"`.  (For the scenario record of the claim, which also triggers
R3, the chain instead carries `"dominates"`; see the counterexample.) -/
theorem claim_c3_amended (rs : List PatientRecord) (p : PatientRecord) (qi : String)
    (h : FreshNames rs) (hp : p ∈ rs) (hr1 : ruleR1 p) (hr3 : ¬ ruleR3 p)
    (hr4 : ¬ ruleR4 p) :
    (retrieve_context (build_graph_from_csv rs) p.id qi).2 =
      [{ preference := dietFlexPrefName p, conflict_relation := "conflicts_with",
         behavior := "Calorie_Intake_CSV", behavior_relation := "influences",
         outcome := outcomeName p }] := by
  rw [retrieve_context_found _ _ _ (build_hasNode_id rs h p hp),
    build_patientPreferences rs h p hp, build_patientOutcomes rs h p hp,
    build_conflictPairs_r1 rs h p hp hr1 hr3 hr4]
  rw [if_neg (by simp)]
  rfl

/-- Witness for the amended C3 at a record triggering R1 only. -/
theorem claim_c3_amended_witness :
    FreshNames [recR1Only] ∧
      (retrieve_context (build_graph_from_csv [recR1Only]) recR1Only.id
          "explain_outcome").2 =
        [{ preference := dietFlexPrefName recR1Only, conflict_relation := "conflicts_with",
           behavior := "Calorie_Intake_CSV", behavior_relation := "influences",
           outcome := outcomeName recR1Only }] :=
  ⟨by decide, claim_c3_amended [recR1Only] recR1Only "explain_outcome" (by decide)
    (List.mem_cons_self recR1Only []) (by decide) (by decide) (by decide)⟩

/-- C4: for every graph and patient present in it, the evidence component of
`retrieve` equals the specification's exhaustive conflict-chain search — one
chain per (preference × conflicts-with-neighbor × outcome) triple with an
existing behavior-to-outcome edge, in preference order, then neighbor order,
then outcome order, with no deduplication — and whenever chains exist the
reasoning lines pair the header with exactly one explanatory line per chain,
in the same order. -/
theorem claim_c4_conflict_search (G : Graph) (pid qi : String)
    (h : G.hasNode pid = true) :
    (retrieve_context G pid qi).2 = specConflictSearch G pid ∧
    ((retrieve_context G pid qi).2 ≠ [] →
      (retrieve_context G pid qi).1 =
        headerLine G pid ::
          (conflictPairs G (patientPreferences G pid) (patientOutcomes G pid)).map
            Prod.snd) := by
  rw [retrieve_context_found G pid qi h]
  by_cases hnil : conflictPairs G (patientPreferences G pid) (patientOutcomes G pid) = []
  · rw [if_pos hnil]
    constructor
    · rw [← conflictPairs_fst, hnil]
      rfl
    · intro hne
      exact absurd rfl hne
  · rw [if_neg hnil]
    exact ⟨conflictPairs_fst G pid, fun _ => rfl⟩

/-- Witness for C4 at the concrete one-record graph of the scenario batch. -/
theorem claim_c4_conflict_search_witness :
    (build_graph_from_csv [recScenarioP1]).hasNode "P1" = true ∧
      (retrieve_context (build_graph_from_csv [recScenarioP1]) "P1" "explain_outcome").2 =
        specConflictSearch (build_graph_from_csv [recScenarioP1]) "P1" :=
  ⟨by decide, (claim_c4_conflict_search (build_graph_from_csv [recScenarioP1]) "P1"
    "explain_outcome" (by decide)).1⟩

/-- C5: the fallback causal trace runs exactly when the conflict-chain search
produced zero chains: with zero chains the reasoning is the header, the
no-conflict announcement, then one line per (outcome, Behavior-or-Outcome
predecessor) pair, and the evidence stays empty; with at least one chain the
reasoning is the header followed only by the chain explanations.  A patient
of a well-formed batch triggering no rule at all gets a non-empty reasoning
sequence containing the announcement line and an empty evidence sequence. -/
theorem claim_c5_fallback :
    (∀ (G : Graph) (pid qi : String), G.hasNode pid = true →
      ((retrieve_context G pid qi).2 = [] →
        (retrieve_context G pid qi).1 =
          headerLine G pid :: noConflictsLine ::
            fallbackLines G (patientOutcomes G pid) ∧
        (retrieve_context G pid qi).2 = []) ∧
      ((retrieve_context G pid qi).2 ≠ [] →
        (retrieve_context G pid qi).1 =
          headerLine G pid ::
            (conflictPairs G (patientPreferences G pid)
              (patientOutcomes G pid)).map Prod.snd)) ∧
    (∀ (rs : List PatientRecord) (p : PatientRecord) (qi : String), FreshNames rs →
      p ∈ rs → ¬ ruleR1 p → ¬ ruleR2 p → ¬ ruleR3 p → ¬ ruleR4 p →
      (retrieve_context (build_graph_from_csv rs) p.id qi).1 =
        headerLine (build_graph_from_csv rs) p.id :: noConflictsLine ::
          fallbackLines (build_graph_from_csv rs) [outcomeName p] ∧
      (retrieve_context (build_graph_from_csv rs) p.id qi).2 = [] ∧
      noConflictsLine ∈ (retrieve_context (build_graph_from_csv rs) p.id qi).1 ∧
      (retrieve_context (build_graph_from_csv rs) p.id qi).1 ≠ []) := by
  constructor
  · intro G pid qi h
    rw [retrieve_context_found G pid qi h]
    by_cases hnil : conflictPairs G (patientPreferences G pid) (patientOutcomes G pid) = []
    · rw [if_pos hnil]
      refine ⟨fun _ => ⟨rfl, rfl⟩, fun hne => ?_⟩
      exact absurd rfl hne
    · rw [if_neg hnil]
      refine ⟨fun hab => ?_, fun _ => rfl⟩
      exact absurd (List.map_eq_nil_iff.mp hab) hnil
  · intro rs p qi h hp hr1 _ _ _
    have hfound := retrieve_context_found (build_graph_from_csv rs) p.id qi
      (build_hasNode_id rs h p hp)
    rw [build_patientPreferences rs h p hp, build_patientOutcomes rs h p hp,
      build_conflictPairs_nor1 rs h p hp hr1, if_pos rfl] at hfound
    rw [hfound]
    refine ⟨rfl, rfl, ?_, ?_⟩
    · simp
    · simp

/-- Witness for C5: the fallback branch at a record triggering no rules, and
the non-fallback branch at the scenario record. -/
theorem claim_c5_fallback_witness :
    (FreshNames [recNoRules] ∧
      (retrieve_context (build_graph_from_csv [recNoRules]) recNoRules.id
        "explain_outcome").2 = [] ∧
      noConflictsLine ∈ (retrieve_context (build_graph_from_csv [recNoRules])
        recNoRules.id "explain_outcome").1) ∧
    ((build_graph_from_csv [recScenarioP1]).hasNode "P1" = true ∧
      (retrieve_context (build_graph_from_csv [recScenarioP1]) "P1"
        "explain_outcome").1 =
        headerLine (build_graph_from_csv [recScenarioP1]) "P1" ::
          (conflictPairs (build_graph_from_csv [recScenarioP1])
            (patientPreferences (build_graph_from_csv [recScenarioP1]) "P1")
            (patientOutcomes (build_graph_from_csv [recScenarioP1]) "P1")).map
            Prod.snd) := by
  constructor
  · refine ⟨by decide, ?_, ?_⟩
    · exact (claim_c5_fallback.2 [recNoRules] recNoRules "explain_outcome" (by decide)
        (List.mem_cons_self recNoRules []) (by decide) (by decide) (by decide)
        (by decide)).2.1
    · exact (claim_c5_fallback.2 [recNoRules] recNoRules "explain_outcome" (by decide)
        (List.mem_cons_self recNoRules []) (by decide) (by decide) (by decide)
        (by decide)).2.2.1
  · refine ⟨by decide, ?_⟩
    exact (claim_c5_fallback.1 (build_graph_from_csv [recScenarioP1]) "P1"
      "explain_outcome" (by decide)).2 (by decide)

/-- C6: in every graph built from a well-formed batch, the node identifiers
are exactly the four shared names followed, per record in input order, by the
patient id and its three derived names (so each record creates exactly one
Patient, two Preference and one Outcome node with the deterministic names);
every node typed `Patient` has exactly one outgoing `experiences` edge and
exactly two outgoing `has_preference` edges; and the per-record nodes carry
the expected types. -/
theorem claim_c6_patient_shape (rs : List PatientRecord) (h : FreshNames rs) :
    (build_graph_from_csv rs).nodes.map Prod.fst = sharedNames ++ rs.flatMap recNames ∧
    (∀ pr ∈ (build_graph_from_csv rs).nodes, pr.2.type = "Patient" →
      ((build_graph_from_csv rs).edgesFrom pr.1).countP
        (fun e => decide (e.2.relation = "experiences")) = 1 ∧
      ((build_graph_from_csv rs).edgesFrom pr.1).countP
        (fun e => decide (e.2.relation = "has_preference")) = 2) ∧
    (∀ p ∈ rs,
      (build_graph_from_csv rs).nodeType p.id = some "Patient" ∧
      (build_graph_from_csv rs).nodeType (dietFlexPrefName p) = some "Preference" ∧
      (build_graph_from_csv rs).nodeType (weightLossPrefName p) = some "Preference" ∧
      (build_graph_from_csv rs).nodeType (outcomeName p) = some "Outcome") := by
  refine ⟨build_nodes_keys rs h, ?_, ?_⟩
  · intro pr hmem htype
    rw [build_nodes rs h] at hmem
    rcases List.mem_append.mp hmem with hs | hf
    · simp only [sharedNodePairs, List.mem_cons, List.not_mem_nil, or_false] at hs
      rcases hs with rfl | rfl | rfl | rfl <;> exact absurd htype (by decide)
    · obtain ⟨q, hq, hmem'⟩ := List.mem_flatMap.mp hf
      simp only [recNodePairs, List.mem_cons, List.not_mem_nil, or_false] at hmem'
      rcases hmem' with rfl | rfl | rfl | rfl
      · rw [(build_master rs h q hq).1]
        constructor <;> rfl
      · exact absurd htype (by simp [dietPrefAttrs])
      · exact absurd htype (by simp [weightPrefAttrs])
      · exact absurd htype (by simp [outcomeAttrs])
  · intro p hp
    exact ⟨build_nodeType_id rs h p hp, build_nodeType_dfp rs h p hp,
      build_nodeType_wlp rs h p hp, build_nodeType_out rs h p hp⟩

/-- Witness for C6 at a concrete two-record batch. -/
theorem claim_c6_patient_shape_witness :
    FreshNames [recScenarioP1, recR1R4] ∧
      (build_graph_from_csv [recScenarioP1, recR1R4]).nodes.map Prod.fst =
        sharedNames ++ [recScenarioP1, recR1R4].flatMap recNames :=
  ⟨by decide, (claim_c6_patient_shape [recScenarioP1, recR1R4] (by decide)).1⟩

/-- C7: the Graph Builder is a deterministic pure function of its ordered
input — two builds from the same ordered record sequence produce identical
node and edge sequences with identical attributes — and records are folded
over in input order, starting from the shared nodes. -/
theorem claim_c7_deterministic :
    (∀ rs : List PatientRecord,
      Graph.same (build_graph_from_csv rs) (build_graph_from_csv rs)) ∧
    (∀ (p : PatientRecord) (rs : List PatientRecord),
      build_graph_from_csv (p :: rs) =
        rs.foldl processPatient (processPatient sharedInit p)) :=
  ⟨fun _ => ⟨rfl, rfl⟩, fun _ _ => rfl⟩

/-- C8: the retriever's output does not depend on `query_intent`: any two
intent values produce identical reasoning lines and evidence. -/
theorem claim_c8_query_intent_noninterference (G : Graph) (pid qi₁ qi₂ : String) :
    retrieve_context G pid qi₁ = retrieve_context G pid qi₂ := rfl

/-- C9: the retriever treats the graph as read-only: in the state-passing
form, which threads the graph through every networkx call, the returned graph
is the input graph unchanged, and the computed answer agrees with
`retrieve_context`. -/
theorem claim_c9_read_only (G : Graph) (pid qi : String) :
    (retrieve_context_st G pid qi).2 = G ∧
    (retrieve_context_st G pid qi).1 = retrieve_context G pid qi := by
  constructor <;> (simp only [retrieve_context_st, retrieve_context]; split_ifs <;> rfl)

/-- C10: for a patient present in the graph, the first reasoning line is the
header (whose outcome list is the empty string when the patient has no
Outcome successor), and when the conflict search emits at least one chain the
reasoning has exactly one more line than the evidence. -/
theorem claim_c10_header_count (G : Graph) (pid qi : String)
    (h : G.hasNode pid = true) :
    (retrieve_context G pid qi).1.head? = some (headerLine G pid) ∧
    ((retrieve_context G pid qi).2 ≠ [] →
      (retrieve_context G pid qi).1.length = (retrieve_context G pid qi).2.length + 1) ∧
    (patientOutcomes G pid = [] →
      headerLine G pid = "Analyzing " ++ pid ++ " who is experiencing: .") := by
  rw [retrieve_context_found G pid qi h]
  refine ⟨?_, ?_, ?_⟩
  · split_ifs <;> rfl
  · split_ifs with hnil
    · intro hne
      exact absurd rfl hne
    · intro _
      simp
  · intro hout
    rw [headerLine, hout, show String.intercalate ", " [] = "" from rfl,
      String.append_empty, String.append_assoc, String.append_assoc,
      show (" who is experiencing: " ++ "." : String) = " who is experiencing: ." from rfl,
      ← String.append_assoc]

/-- Witness for C10 at the concrete scenario graph, which has one chain. -/
theorem claim_c10_header_count_witness :
    (build_graph_from_csv [recScenarioP1]).hasNode "P1" = true ∧
      (retrieve_context (build_graph_from_csv [recScenarioP1]) "P1"
        "explain_outcome").1.head? =
        some (headerLine (build_graph_from_csv [recScenarioP1]) "P1") ∧
      (retrieve_context (build_graph_from_csv [recScenarioP1]) "P1"
        "explain_outcome").1.length =
        (retrieve_context (build_graph_from_csv [recScenarioP1]) "P1"
          "explain_outcome").2.length + 1 :=
  ⟨by decide,
    (claim_c10_header_count (build_graph_from_csv [recScenarioP1]) "P1"
      "explain_outcome" (by decide)).1,
    (claim_c10_header_count (build_graph_from_csv [recScenarioP1]) "P1"
      "explain_outcome" (by decide)).2.1 (by decide)⟩
